import Mathlib

/-!
Verification of the signalry campaign send pipeline: SMTP rotation and
failure handling (`smtp/models.py`), the queue executor and service
(`queues/`), the campaign send loop (`campaigns/tasks.py`), and the
beacon-based open/click tracking (`message_system/views.py`,
`message_system/models.py`, `tracking/views.py`).

Each definition is a shallow embedding of the corresponding Python
function.  Django rows become Lean structures, the database becomes
explicit lists of rows, `timezone.now()` becomes an explicit `now : Nat`
argument, exceptions become `Except`/sum results, and library primitives
that the code merely composes (`hashlib.sha256(...).hexdigest()`,
`random.choice`) become explicit parameters (a hash oracle `h` and a
random index `k`).
-/

namespace Signalry

/-! ## SMTP accounts — `smtp/models.py` -/

/-- Row of the `SMTPAccount` table (`smtp/models.py`).  `userId` is the
foreign key to the owning user; `last_health_check` is an optional
timestamp; the auto-maintained `created_at`/`updated_at` bookkeeping
columns are not part of any behaviour. -/
structure SMTPAccount where
  id : Nat
  userId : Nat
  smtp_host : String
  smtp_port : Nat
  smtp_user : String
  smtp_password_encrypted : String
  rotation_group : Option String
  status : String
  last_health_check : Option Nat
  failure_count : Nat
deriving DecidableEq, Repr

/-- `SMTPAccountManager.create_smtp`: the account constructed and saved
after `validate_smtp` succeeded (the SMTP network probe itself is outside
the model; on probe failure nothing is created).  `encrypt(smtp_password)`
is taken as the given `encryptedPassword`. -/
def create_smtp (id userId : Nat) (host : String) (port : Nat)
    (smtpUser encryptedPassword : String) (rotation_group : Option String)
    (now : Nat) : SMTPAccount :=
  { id := id
    userId := userId
    smtp_host := host
    smtp_port := port
    smtp_user := smtpUser
    smtp_password_encrypted := encryptedPassword
    rotation_group := rotation_group
    status := "active"
    last_health_check := some now
    failure_count := 0 }

/-- `SMTPAccountManager.disable_if_failed`: set status to `"disabled"`
when `failure_count >= failure_threshold`; returns the updated row and
the boolean the Python method returns. -/
def disable_if_failed (a : SMTPAccount) (failure_threshold : Nat) :
    SMTPAccount × Bool :=
  if a.failure_count ≥ failure_threshold then
    ({ a with status := "disabled" }, true)
  else (a, false)

/-- `SMTPAccount.mark_failure`: increment the failure counter, stamp
`last_health_check`, then run `disable_if_failed` with the default
threshold 3. -/
def mark_failure (a : SMTPAccount) (now : Nat) : SMTPAccount :=
  let a' := { a with failure_count := a.failure_count + 1
                     last_health_check := some now }
  (disable_if_failed a' 3).1

/-- `SMTPAccount.reset_failures`: zero the failure counter, restore
`"active"`, stamp `last_health_check`. -/
def reset_failures (a : SMTPAccount) (now : Nat) : SMTPAccount :=
  { a with failure_count := 0
           status := "active"
           last_health_check := some now }

/-- The queryset built by `get_smtp_for_sending` in its rotation branch:
`self.filter(user=user, status="active")`, further filtered by
`rotation_group` when one is given (Python's `if rotation_group:`). -/
def rotationCandidates (accounts : List SMTPAccount) (userId : Nat)
    (rotation_group : Option String) : List SMTPAccount :=
  let qs := accounts.filter (fun a => a.userId == userId && a.status == "active")
  match rotation_group with
  | some g => qs.filter (fun a => a.rotation_group == some g)
  | none => qs

/-- `SMTPAccountManager.get_smtp_for_sending`.  `k` is the oracle feeding
`random.choice` (the chosen index, reduced mod the list length);
`ValidationError` becomes `Except.error` carrying the message. -/
def get_smtp_for_sending (accounts : List SMTPAccount) (userId : Nat)
    (rotation_group : Option String) (specific_account : Option SMTPAccount)
    (k : Nat) : Except String SMTPAccount :=
  match specific_account with
  | some a =>
      if a.status ≠ "active" then
        .error "Selected SMTP account is not active"
      else .ok a
  | none =>
      let qs := rotationCandidates accounts userId rotation_group
      if hq : qs = [] then
        .error "No active SMTP accounts available for sending"
      else
        .ok (qs.get ⟨k % qs.length, Nat.mod_lt _ (List.length_pos.mpr hq)⟩)

/-- Circuit-breaker invariant of the SMTP table: an account in status
`"active"` has strictly fewer failures than the default threshold 3. -/
def smtp_invariant (a : SMTPAccount) : Prop :=
  a.status = "active" → a.failure_count < 3

/-- Outcome of `SMTPAccountManager.send_email`: a normal return carrying
the Python return value and the saved account, or a propagated exception
(`raised`) carrying the exception text and the account state at the
moment of the raise (`none` when the exception came from account
selection, before any account was chosen). -/
inductive SendEmailResult where
  | ok (returned : Bool) (account : SMTPAccount)
  | raised (e : String) (account : Option SMTPAccount)
deriving DecidableEq, Repr

/-- `SMTPAccountManager.send_email`.  `smtpSend acct` is the outcome of
building the MIME message and driving `smtplib` with `acct` (the body of
the `try`, up to `server.quit()`): `.ok ()` when it completes, `.error e`
when any exception is raised there.  On success the account's failures
are reset and `True` is returned; on exception `mark_failure` runs and
the exception is re-raised. -/
def send_email (accounts : List SMTPAccount) (userId : Nat)
    (rotation_group : Option String) (specific_account : Option SMTPAccount)
    (smtpSend : SMTPAccount → Except String Unit) (now k : Nat) :
    SendEmailResult :=
  match get_smtp_for_sending accounts userId rotation_group specific_account k with
  | .error e => .raised e none
  | .ok acct =>
      match smtpSend acct with
      | .ok _ => .ok true (reset_failures acct now)
      | .error e => .raised e (mark_failure acct now)

/-! ## Messages and recipients — `message_system/models.py` -/

/-- Row of the `Message` table, restricted to the columns the send
pipeline reads or writes (`campaign_id`, `uuid`, `status`, `retries`,
`sent_at`, `created_at`; the body/subject columns and the auto
`updated_at` stamp play no role in the verified behaviour). -/
structure Message where
  id : Nat
  campaign_id : Nat
  uuid : String
  status : String
  retries : Nat
  sent_at : Option Nat
  created_at : Nat
deriving DecidableEq, Repr

/-- `Message.mark_sent`. -/
def Message.mark_sent (m : Message) (now : Nat) : Message :=
  { m with status := "sent", sent_at := some now }

/-- `Message.mark_failed`. -/
def Message.mark_failed (m : Message) : Message :=
  { m with status := "failed" }

/-- `Message.retry`: set status `"retried"` and bump the counter. -/
def Message.retry (m : Message) : Message :=
  { m with status := "retried", retries := m.retries + 1 }

/-- Row of the `MessageRecipient` table (delivery-tracking columns). -/
structure MessageRecipient where
  id : Nat
  message_id : Nat
  contact_id : Nat
  status : String
  sent_at : Option Nat
  opened_at : Option Nat
  error_message : String
  retry_count : Nat
deriving DecidableEq, Repr

/-- `MessageRecipient.mark_sent`. -/
def MessageRecipient.mark_sent (r : MessageRecipient) (now : Nat) :
    MessageRecipient :=
  { r with status := "sent", sent_at := some now }

/-- `MessageRecipient.mark_opened`. -/
def MessageRecipient.mark_opened (r : MessageRecipient) (now : Nat) :
    MessageRecipient :=
  { r with status := "opened", opened_at := some now }

/-- `MessageRecipient.mark_failed`. -/
def MessageRecipient.mark_failed (r : MessageRecipient) (e : String) :
    MessageRecipient :=
  { r with status := "failed", error_message := e
           retry_count := r.retry_count + 1 }

/-! ## Queue selector, executor and service — `queues/` -/

/-- Stable insertion of a message into a list sorted by `created_at`
(ascending); helper for the database's `order_by("created_at")`. -/
def insertByCreated (m : Message) : List Message → List Message
  | [] => [m]
  | x :: xs =>
      if m.created_at < x.created_at then m :: x :: xs
      else x :: insertByCreated m xs

/-- Stable sort by `created_at` modelling `order_by("created_at")`. -/
def sortByCreated : List Message → List Message
  | [] => []
  | x :: xs => insertByCreated x (sortByCreated xs)

/-- `queues/selectors.py get_messages_ready_for_sending`: the messages
with status `"queued"`, ordered by `created_at`, truncated to `limit`. -/
def get_messages_ready_for_sending (messages : List Message) (limit : Nat) :
    List Message :=
  (sortByCreated (messages.filter (fun m => m.status == "queued"))).take limit

/-- `queues/executor.py execute_message_send`.  `sendRaises` is the
oracle for whether `SMTPAccount.objects.send_email` raises on this
attempt (its own account bookkeeping is modelled with `send_email`
above).  Returns the saved message and the Python return value. -/
def execute_message_send (m : Message) (sendRaises : Bool) (now : Nat) :
    Message × Bool :=
  if m.status ≠ "queued" ∧ m.status ≠ "retried" then (m, false)
  else if sendRaises then
    if m.retries ≥ 3 then (m.mark_failed, false)
    else (m.retry, false)
  else (m.mark_sent now, true)

/-- The per-message body of the loop in `queues/services.py
run_message_queue`: run the executor on the (shared, already mutated)
message object, then apply the service's own status/retries update. -/
def run_queue_step (m : Message) (sendRaises : Bool) (now : Nat) : Message :=
  let (m', success) := execute_message_send m sendRaises now
  if success then
    { m' with status := "sent", sent_at := some now }
  else
    let m'' := { m' with retries := m'.retries + 1 }
    if m''.retries ≥ 3 then { m'' with status := "failed" }
    else { m'' with status := "retried" }

/-- The `results` dict of `run_message_queue`. -/
structure QueueResults where
  processed : Nat
  sent : Nat
  failed : Nat
deriving DecidableEq, Repr

/-- `queues/services.py run_message_queue` with `batch_size`: select the
ready messages, run each through the executor plus the service's own
update, and tally the results dict.  Note `"failed"` counts only the
messages pushed to retries ≥ 3 this run, exactly as the Python does. -/
def run_message_queue (messages : List Message)
    (sendRaises : Message → Bool) (now batch_size : Nat) :
    List Message × QueueResults :=
  let selected := get_messages_ready_for_sending messages batch_size
  let processed := selected.map (fun m => run_queue_step m (sendRaises m) now)
  ( processed
  , { processed := selected.length
      sent := processed.countP (fun m => m.status == "sent")
      failed := processed.countP (fun m => m.status == "failed") } )

/-! ## Campaign send loop — `campaigns/tasks.py` -/

/-- Row of the `Campaign` table, restricted to what
`send_campaign_emails` reads. -/
structure Campaign where
  id : Nat
  userId : Nat
  status : String
  scheduled_at : Option Nat
deriving DecidableEq, Repr

/-- Python's `campaign.scheduled_at and campaign.scheduled_at > timezone.now()`. -/
def scheduledInFuture (c : Campaign) (now : Nat) : Bool :=
  match c.scheduled_at with
  | some t => now < t
  | none => false

/-- Outcome of one `send_single_email(recipient)` call as seen by the
loop in `send_campaign_emails`: returned `True`, returned `False`, or
raised an exception with text `e`. -/
inductive SendOutcome where
  | success
  | failure
  | exn (e : String)
deriving DecidableEq, Repr

/-- One iteration of the recipient loop of `send_campaign_emails`:
`mark_sent` on success, `mark_failed("Send failed")` on a `False`
return, `mark_failed(str(e))` on an exception. -/
def process_recipient (r : MessageRecipient) (o : SendOutcome) (now : Nat) :
    MessageRecipient :=
  match o with
  | .success => r.mark_sent now
  | .failure => r.mark_failed "Send failed"
  | .exn e => r.mark_failed e

/-- `campaigns/tasks.py send_campaign_emails`.  `message` is
`campaign.messages.first()`; `recipients` the rows of
`message.recipients`; `outcome r` the oracle for
`send_single_email(r)`.  Returns the new recipient table, the saved
campaign, and the `(sent_count, failed_count)` pair the Python returns.
The UUID backfill and all logging are pure bookkeeping on other state
and are omitted. -/
def send_campaign_emails (campaign : Campaign) (message : Option Message)
    (recipients : List MessageRecipient) (limit : Option Nat)
    (outcome : MessageRecipient → SendOutcome) (now : Nat) :
    List MessageRecipient × Campaign × Nat × Nat :=
  if campaign.status ≠ "active" then (recipients, campaign, 0, 0)
  else if scheduledInFuture campaign now then (recipients, campaign, 0, 0)
  else
    match message with
    | none => (recipients, campaign, 0, 0)
    | some _ =>
        let pending := recipients.filter (fun r => r.status == "pending")
        -- Python's `if limit:` — a limit of 0 (falsy) applies no slice
        let toProcess := match limit with
          | none => pending
          | some l => if l == 0 then pending else pending.take l
        let sent := toProcess.countP (fun r => outcome r == SendOutcome.success)
        let failed := toProcess.length - sent
        let recipients' := recipients.map (fun r =>
          if r ∈ toProcess then process_recipient r (outcome r) now else r)
        let campaign' :=
          if sent > 0 && failed == 0 then { campaign with status := "completed" }
          else campaign
        (recipients', campaign', sent, failed)

/-! ## Privacy helpers shared by the tracking code -/

/-- Python `s.split('/')[0]`: the characters before the first `'/'`
(the whole string when there is none). -/
def pySplitHead (s : String) : String :=
  String.mk (s.data.takeWhile (fun c => c ≠ '/'))

/-- Python `s[:50]`: the first 50 characters. -/
def pyTruncate50 (s : String) : String :=
  String.mk (s.data.take 50)

/-- The user-agent coarsening `s.split('/')[0][:50]` used everywhere a
user agent is stored. -/
def uaFamilyOf (s : String) : String :=
  pyTruncate50 (pySplitHead s)

/-- `hashlib.sha256(raw_ip.encode("utf-8")).hexdigest() if raw_ip else
None`, with the digest itself as the oracle `h`. -/
def hashIp (h : String → String) (raw_ip : String) : Option String :=
  if raw_ip ≠ "" then some (h raw_ip) else none

/-! ## Open tracking — `message_system/models.py`, `message_system/views.py` -/

/-- Row of the `MessageOpen` table. -/
structure MessageOpen where
  message_id : Nat
  recipient_id : Option Nat
  beacon_uuid : String
  ip_hash : Option String
  user_agent_family : String
  opened_at : Nat
deriving DecidableEq, Repr

/-- The defensive layer in `MessageOpen.save`: re-coarsen a non-empty
user agent before the row hits the table. -/
def MessageOpen.applySave (o : MessageOpen) : MessageOpen :=
  if o.user_agent_family ≠ "" then
    { o with user_agent_family := uaFamilyOf o.user_agent_family }
  else o

/-- `MessageOpenManager.record_open`: resolve the recipient from the
contact, hash the IP, coarsen the user agent, mark the recipient opened
when found, and create the `MessageOpen` row (whose `save` re-coarsens).
Returns the updated recipient table and the created row. -/
def record_open (recipients : List MessageRecipient) (message : Message)
    (contact : Option Nat) (raw_ip : String) (user_agent_family : String)
    (beacon_uuid : Option String) (h : String → String) (now : Nat) :
    List MessageRecipient × MessageOpen :=
  let buuid := beacon_uuid.getD message.uuid
  let recipient : Option MessageRecipient := match contact with
    | none => none
    | some c => recipients.find?
        (fun r => r.message_id == message.id && r.contact_id == c)
  let ua := if user_agent_family ≠ "" then uaFamilyOf user_agent_family
            else user_agent_family
  let recipients' := match recipient with
    | some rec => recipients.map
        (fun r => if r.id == rec.id then r.mark_opened now else r)
    | none => recipients
  let row := MessageOpen.applySave
    { message_id := message.id
      recipient_id := recipient.map (fun r => r.id)
      beacon_uuid := buuid
      ip_hash := hashIp h raw_ip
      user_agent_family := ua
      opened_at := now }
  (recipients', row)

/-- The fixed 1x1 transparent PNG `PIXEL` of `message_system/views.py`,
byte for byte. -/
def PIXEL : List Nat :=
  [137, 80, 78, 71, 13, 10, 26, 10, 0, 0, 0, 13, 73, 72, 68, 82,
   0, 0, 0, 1, 0, 0, 0, 1,
   8, 6, 0, 0, 0, 31, 21, 196,
   137, 0, 0, 0, 10, 73, 68, 65, 84, 120, 218, 99, 248,
   15, 0, 1, 1, 1, 0, 24, 221,
   141, 24, 0, 0, 0, 0, 73, 69, 78, 68, 174, 66, 96, 130]

/-- An HTTP response as the views build it: Django's default status 200,
a content type, and a byte body. -/
structure HttpResponse where
  status : Nat
  content_type : String
  body : List Nat
deriving DecidableEq, Repr

/-- `HttpResponse(PIXEL, content_type="image/png")`. -/
def pixelResponse : HttpResponse :=
  { status := 200, content_type := "image/png", body := PIXEL }

/-- The tables `message_beacon` touches. -/
structure BeaconDB where
  messages : List Message
  recipients : List MessageRecipient
  opens : List MessageOpen
deriving DecidableEq, Repr

/-- Result of a request to `message_beacon`: a normal response together
with the database state and the `MessageOpen` row created (if any), or
an unhandled exception (Django's 500 path) leaving the database as it
was when the exception escaped. -/
inductive BeaconResult where
  | ok (resp : HttpResponse) (db : BeaconDB) (created : Option MessageOpen)
  | error (e : String) (db : BeaconDB)
deriving DecidableEq, Repr

/-- Decimal-digit accumulator for `parseRecipientId`. -/
def parseNatDigits : List Char → Nat → Option Nat
  | [], acc => some acc
  | c :: cs, acc =>
      if 48 ≤ c.toNat ∧ c.toNat ≤ 57 then
        parseNatDigits cs (acc * 10 + (c.toNat - 48))
      else none

/-- Django's coercion of the `recipient` query-parameter string to an
integer primary key inside `MessageRecipient.objects.get(id=...)`
(Python `int(value)`): an optional sign followed by decimal digits; a
string that is not an integer raises `ValueError`, modelled as `none`. -/
def parseRecipientId (s : String) : Option Int :=
  match s.data with
  | [] => none
  | c :: cs =>
      if c = '-' then
        match cs with
        | [] => none
        | _ => (parseNatDigits cs 0).map (fun n => -(n : Int))
      else (parseNatDigits (c :: cs) 0).map (fun n => (n : Int))

/-- The `MessageOpen` row `message_beacon` creates (the view's hashing
and user-agent extraction, then `MessageOpen.save`). -/
def beaconOpenRow (msgId : Nat) (uuid remote_addr user_agent : String)
    (recipient : Option MessageRecipient) (h : String → String)
    (now : Nat) : MessageOpen :=
  MessageOpen.applySave
    { message_id := msgId
      recipient_id := recipient.map (fun r => r.id)
      beacon_uuid := uuid
      ip_hash := hashIp h remote_addr
      user_agent_family := if user_agent ≠ "" then uaFamilyOf user_agent else ""
      opened_at := now }

/-- The tail of the happy path of `message_beacon` once the recipient
(possibly `None`) is known: create the `MessageOpen` row, mark the
recipient opened when there is one, return the pixel. -/
def beaconRecordFor (db : BeaconDB) (msg : Message)
    (uuid remote_addr user_agent : String)
    (recipient : Option MessageRecipient) (h : String → String)
    (now : Nat) : BeaconResult :=
  let row := beaconOpenRow msg.id uuid remote_addr user_agent recipient h now
  let recipients' := match recipient with
    | some rec => db.recipients.map
        (fun r => if r.id == rec.id then r.mark_opened now else r)
    | none => db.recipients
  .ok pixelResponse
    { db with opens := db.opens ++ [row], recipients := recipients' }
    (some row)

/-- `message_system/views.py message_beacon`.  `uuid` is the URL
parameter, `remote_addr`/`user_agent` come from `request.META` (empty
string when absent), `recipient_param` from `request.GET` (empty string
when absent), `h` is the SHA-256 hexdigest oracle.  Only
`Message.DoesNotExist` and `MessageRecipient.DoesNotExist` are caught;
the `ValueError` from a non-integer recipient id escapes. -/
def message_beacon (db : BeaconDB) (uuid : String)
    (remote_addr user_agent recipient_param : String)
    (h : String → String) (now : Nat) : BeaconResult :=
  match db.messages.find? (fun m => m.uuid == uuid) with
  | none =>
      -- `except Message.DoesNotExist`: never leak, still return the pixel
      .ok pixelResponse db none
  | some msg =>
      if recipient_param == "" then
        beaconRecordFor db msg uuid remote_addr user_agent none h now
      else
        match parseRecipientId recipient_param with
        | none =>
            -- uncaught ValueError from the id coercion: no row, no pixel
            .error "ValueError: invalid recipient id" db
        | some rid =>
            match db.recipients.find?
                (fun r => (r.id : Int) == rid && r.message_id == msg.id) with
            | some rec =>
                beaconRecordFor db msg uuid remote_addr user_agent (some rec) h now
            | none =>
                beaconRecordFor db msg uuid remote_addr user_agent none h now

/-! ## Click tracking — `tracking/views.py`, `tracking/models.py` -/

/-- Row of the `Click` table. -/
structure Click where
  message_id : Nat
  beacon_uuid : Option String
  url : Option String
  ip_hash : Option String
  user_agent_family : String
deriving DecidableEq, Repr

/-- The defensive truncation in `Click.save`. -/
def Click.applySave (c : Click) : Click :=
  if c.user_agent_family ≠ "" then
    { c with user_agent_family := uaFamilyOf c.user_agent_family }
  else c

/-- The request body of `RecordClickView.post` (`request.data.get`
returns `none` for an absent key; `user_agent_family` defaults to `""`). -/
structure ClickRequest where
  beacon_uuid : Option String
  url : Option String
  ip : Option String
  user_agent_family : String
deriving DecidableEq, Repr

/-- `tracking/views.py RecordClickView.post`: look the message up by
`beacon_uuid`; on `DoesNotExist` answer 404 `"Message not found"`,
otherwise create the `Click` row and answer 201.  Returns the status
code and the new `Click` table. -/
def record_click_view (messages : List Message) (clicks : List Click)
    (req : ClickRequest) (h : String → String) : Nat × List Click :=
  match messages.find? (fun m => req.beacon_uuid == some m.uuid) with
  | none => (404, clicks)
  | some msg =>
      let raw_ip := req.ip.getD ""
      let click := Click.applySave
        { message_id := msg.id
          beacon_uuid := req.beacon_uuid
          url := req.url
          ip_hash := hashIp h raw_ip
          user_agent_family := req.user_agent_family }
      (201, clicks ++ [click])

/-! ## The CLI entry points — `campaigns/management/commands/process_campaigns.py` -/

/-- The module-level functions defined in `campaigns/tasks.py`
(the file defines exactly these four). -/
def campaignsTasksDefs : List String :=
  ["send_campaign_emails", "send_single_email", "send_via_smtp",
   "get_current_site_url"]

/-- The names `process_campaigns.py` imports from `campaigns.tasks`
(line 7: `from campaigns.tasks import send_campaign_emails,
retry_failed_emails, check_campaign_status`). -/
def processCampaignsTasksImports : List String :=
  ["send_campaign_emails", "retry_failed_emails", "check_campaign_status"]

/-! ## Concrete rows used in counterexamples and witnesses -/

/-- A concrete active account owned by user 1 in rotation group
"groupA". -/
def acctOfUser1 : SMTPAccount :=
  { id := 1, userId := 1, smtp_host := "smtp.example.com", smtp_port := 587
    smtp_user := "u1", smtp_password_encrypted := "enc"
    rotation_group := some "groupA", status := "active"
    last_health_check := none, failure_count := 0 }

/-- A concrete message in status "retried". -/
def msgRetriedEx : Message :=
  { id := 3, campaign_id := 1, uuid := "mu-3", status := "retried"
    retries := 1, sent_at := none, created_at := 0 }

/-- The pending recipients of the message,
`message.recipients.filter(status='pending')`. -/
def pendingOf (recipients : List MessageRecipient) : List MessageRecipient :=
  recipients.filter (fun r => r.status == "pending")

/-- The recipients the loop iterates over under the amended reading: all
pending recipients, or the first `l` of them when a nonzero limit `l`
is given. -/
def toProcessOf (recipients : List MessageRecipient) (limit : Option Nat) :
    List MessageRecipient :=
  match limit with
  | none => pendingOf recipients
  | some l => (pendingOf recipients).take l

/-- A concrete active unscheduled campaign, its message, and a pending
recipient. -/
def campaignActive : Campaign :=
  { id := 1, userId := 1, status := "active", scheduled_at := none }

def msgOfCampaign : Message :=
  { id := 1, campaign_id := 1, uuid := "mu-1", status := "sent"
    retries := 0, sent_at := none, created_at := 0 }

def pendingRec : MessageRecipient :=
  { id := 1, message_id := 1, contact_id := 1, status := "pending"
    sent_at := none, opened_at := none, error_message := ""
    retry_count := 0 }

/-- A second message and one recipient of each message, for the beacon
scenarios. -/
def msgBeacon2 : Message :=
  { id := 2, campaign_id := 1, uuid := "mu-2", status := "sent"
    retries := 0, sent_at := none, created_at := 0 }

def recOfMsg1 : MessageRecipient :=
  { id := 10, message_id := 1, contact_id := 7, status := "sent"
    sent_at := some 1, opened_at := none, error_message := ""
    retry_count := 0 }

def recOfMsg2 : MessageRecipient :=
  { id := 11, message_id := 2, contact_id := 8, status := "sent"
    sent_at := some 1, opened_at := none, error_message := ""
    retry_count := 0 }

/-- A concrete beacon database: messages "mu-1" (id 1) and "mu-2"
(id 2), one recipient each, no recorded opens. -/
def beaconDBEx : BeaconDB :=
  { messages := [msgOfCampaign, msgBeacon2]
    recipients := [recOfMsg1, recOfMsg2]
    opens := [] }

/-- A concrete click request naming message "mu-1". -/
def clickReqEx : ClickRequest :=
  { beacon_uuid := some "mu-1", url := some "https://example.com/x"
    ip := none, user_agent_family := "" }

/-- A concrete identity hash oracle for closed evaluations (the
statements hold for every oracle `h`). -/
def idHash : String → String := fun s => s

/-! ## Helper lemmas -/

theorem mem_insertByCreated {a m : Message} {l : List Message} :
    a ∈ insertByCreated m l ↔ a = m ∨ a ∈ l := by
  induction l with
  | nil => simp [insertByCreated]
  | cons x xs ih =>
      simp only [insertByCreated]
      split
      · simp
      · simp [ih]; tauto

theorem mem_sortByCreated {a : Message} {l : List Message} :
    a ∈ sortByCreated l ↔ a ∈ l := by
  induction l with
  | nil => simp [sortByCreated]
  | cons x xs ih => simp [sortByCreated, mem_insertByCreated, ih]

theorem status_of_mem_ready {m : Message} {messages : List Message}
    {limit : Nat} (h : m ∈ get_messages_ready_for_sending messages limit) :
    m.status = "queued" := by
  unfold get_messages_ready_for_sending at h
  have h1 : m ∈ sortByCreated (messages.filter (fun m => m.status == "queued")) :=
    List.mem_of_mem_take h
  have h2 := mem_sortByCreated.mp h1
  have h3 := (List.mem_filter.mp h2).2
  simpa using h3

theorem uaFamilyOf_idem (s : String) : uaFamilyOf (uaFamilyOf s) = uaFamilyOf s := by
  unfold uaFamilyOf pySplitHead pyTruncate50
  have hmk : ∀ l : List Char, (String.mk l).data = l := fun _ => rfl
  simp only [hmk]
  have hall : ∀ x ∈ (s.data.takeWhile (fun c => c ≠ '/')).take 50,
      (fun c => decide (c ≠ '/')) x = true := by
    intro x hx
    have hx' : x ∈ s.data.takeWhile (fun c => decide (c ≠ '/')) :=
      List.mem_of_mem_take hx
    simpa using List.mem_takeWhile_imp hx'
  rw [List.takeWhile_eq_self_iff.mpr hall, List.take_take]
  simp

theorem uaFamilyOf_length_le (s : String) : (uaFamilyOf s).length ≤ 50 := by
  show ((s.data.takeWhile fun c => c ≠ '/').take 50).length ≤ 50
  rw [List.length_take]
  omega

theorem uaFamilyOf_empty : uaFamilyOf "" = "" := rfl

/-- The composition "coarsen in the caller, then re-coarsen in `save`"
always lands on `uaFamilyOf` of the original user agent. -/
theorem uaFamily_pipeline (s : String) :
    (if (if s ≠ "" then uaFamilyOf s else s) ≠ ""
      then uaFamilyOf (if s ≠ "" then uaFamilyOf s else s)
      else (if s ≠ "" then uaFamilyOf s else s)) = uaFamilyOf s := by
  by_cases hs : s = ""
  · subst hs; simp; decide
  · simp only [hs, if_neg, ne_eq, not_false_iff, if_true]
    by_cases ht : uaFamilyOf s = ""
    · simp [ht]
    · simp [ht, uaFamilyOf_idem]

/-- Variant with `""` in the else-branch, as in the beacon view where the
family variable is initialised to `""`. -/
theorem uaFamily_pipeline' (s : String) :
    (if (if s ≠ "" then uaFamilyOf s else "") ≠ ""
      then uaFamilyOf (if s ≠ "" then uaFamilyOf s else "")
      else (if s ≠ "" then uaFamilyOf s else "")) = uaFamilyOf s := by
  by_cases hs : s = ""
  · subst hs; simp; decide
  · simpa [hs] using uaFamily_pipeline s

/-! ## C3 — circuit-breaker invariant -/

/-- C3: every SMTP account operation preserves the invariant that an
account in status "active" has `failure_count` below the default
threshold 3: `create_smtp` starts at 0 and "active"; `mark_failure`
increments the counter and, via `disable_if_failed`, moves the account
to "disabled" exactly when the new counter reaches 3; `reset_failures`
returns to 0 and "active".  Each resulting account satisfies
`smtp_invariant` outright. -/
theorem smtp_circuit_breaker_invariant
    (a : SMTPAccount) (id userId port now : Nat)
    (host smtpUser encPw : String) (rg : Option String) :
    ((create_smtp id userId host port smtpUser encPw rg now).failure_count = 0 ∧
     (create_smtp id userId host port smtpUser encPw rg now).status = "active" ∧
     smtp_invariant (create_smtp id userId host port smtpUser encPw rg now)) ∧
    ((mark_failure a now).failure_count = a.failure_count + 1 ∧
     (a.failure_count + 1 ≥ 3 → (mark_failure a now).status = "disabled") ∧
     (a.failure_count + 1 < 3 → (mark_failure a now).status = a.status) ∧
     smtp_invariant (mark_failure a now)) ∧
    ((reset_failures a now).failure_count = 0 ∧
     (reset_failures a now).status = "active" ∧
     smtp_invariant (reset_failures a now)) := by
  refine ⟨⟨rfl, rfl, ?_⟩, ⟨?_, ?_, ?_, ?_⟩, rfl, rfl, ?_⟩
  · intro _; show (0 : Nat) < 3; omega
  · simp [mark_failure, disable_if_failed]
    split <;> rfl
  · intro hge
    simp only [mark_failure, disable_if_failed]
    rw [if_pos (by simpa using hge)]
  · intro hlt
    simp only [mark_failure, disable_if_failed]
    rw [if_neg (by simp; omega)]
  · intro hact
    simp only [mark_failure, disable_if_failed] at hact ⊢
    by_cases hge : a.failure_count + 1 ≥ 3
    · rw [if_pos (by simpa using hge)] at hact
      simp at hact
    · rw [if_neg (by simp; omega)] at hact ⊢
      simpa using Nat.lt_of_succ_le (by omega)
  · intro _; show (0 : Nat) < 3; omega

/-- Closed instance of `smtp_circuit_breaker_invariant` (its statement
contains implications): the invariant conclusions at a concrete
account with `failure_count = 2`. -/
theorem smtp_circuit_breaker_invariant_witness :
    smtp_invariant (mark_failure
      (create_smtp 1 1 "smtp.example.com" 587 "u" "enc" none 0) 1) :=
  (smtp_circuit_breaker_invariant
    (create_smtp 1 1 "smtp.example.com" 587 "u" "enc" none 0)
    1 1 587 1 "smtp.example.com" "u" "enc" none).2.1.2.2.2

/-! ## C2 — SMTP selection -/

theorem mem_rotationCandidates {a : SMTPAccount} {accounts : List SMTPAccount}
    {userId : Nat} {rg : Option String}
    (h : a ∈ rotationCandidates accounts userId rg) :
    a ∈ accounts ∧ a.userId = userId ∧ a.status = "active" ∧
      ∀ g, rg = some g → a.rotation_group = some g := by
  unfold rotationCandidates at h
  cases rg with
  | none =>
      obtain ⟨hmem, hp⟩ := List.mem_filter.mp h
      simp only [Bool.and_eq_true, beq_iff_eq] at hp
      exact ⟨hmem, hp.1, hp.2, fun g hg => Option.noConfusion hg⟩
  | some g =>
      obtain ⟨h1, hgrp⟩ := List.mem_filter.mp h
      obtain ⟨hmem, hp⟩ := List.mem_filter.mp h1
      simp only [Bool.and_eq_true, beq_iff_eq] at hp hgrp
      exact ⟨hmem, hp.1, hp.2, fun g' hg => by
        cases hg; simpa using hgrp⟩



/-- C2 (counterexample): `get_smtp_for_sending` called for user 2 with
rotation group "groupB" but with `specific_account` set to user 1's
"groupA" account happily returns that account — it checks only the
status of a specific account, never its owner or group, contradicting
the claim that the returned account always belongs to the given user
and rotation group. -/
theorem get_smtp_for_sending_ignores_owner_cex :
    get_smtp_for_sending [] 2 (some "groupB") (some acctOfUser1) 0 =
        .ok acctOfUser1 ∧
      acctOfUser1.userId ≠ 2 ∧
      acctOfUser1.rotation_group ≠ some "groupB" := by
  refine ⟨rfl, by decide, by decide⟩

/-- C2 (amended): every account returned by `get_smtp_for_sending` has
status "active"; when `specific_account` is NOT given the account
additionally comes from the given user's account list and matches the
requested rotation group; when no account qualifies (an empty rotation
pool, or an inactive specific account) a `ValidationError` is raised
instead of returning an account. -/
theorem get_smtp_for_sending_spec (accounts : List SMTPAccount)
    (userId : Nat) (rg : Option String) (sa : Option SMTPAccount) (k : Nat) :
    (∀ a, get_smtp_for_sending accounts userId rg sa k = .ok a →
      a.status = "active") ∧
    (sa = none → ∀ a, get_smtp_for_sending accounts userId rg sa k = .ok a →
      a ∈ accounts ∧ a.userId = userId ∧
        ∀ g, rg = some g → a.rotation_group = some g) ∧
    (sa = none → rotationCandidates accounts userId rg = [] →
      get_smtp_for_sending accounts userId rg sa k =
        .error "No active SMTP accounts available for sending") ∧
    (∀ a0, sa = some a0 → a0.status ≠ "active" →
      get_smtp_for_sending accounts userId rg sa k =
        .error "Selected SMTP account is not active") := by
  refine ⟨?_, ?_, ?_, ?_⟩
  · intro a hok
    cases sa with
    | some a0 =>
        simp only [get_smtp_for_sending] at hok
        by_cases hst : a0.status = "active"
        · rw [if_neg (by simpa using hst)] at hok
          cases hok
          exact hst
        · rw [if_pos (by simpa using hst)] at hok
          cases hok
    | none =>
        simp only [get_smtp_for_sending] at hok
        by_cases hq : rotationCandidates accounts userId rg = []
        · rw [dif_pos hq] at hok; cases hok
        · rw [dif_neg hq] at hok
          cases hok
          exact (mem_rotationCandidates (List.get_mem _ _ _)).2.2.1
  · intro hsa a hok
    subst hsa
    simp only [get_smtp_for_sending] at hok
    by_cases hq : rotationCandidates accounts userId rg = []
    · rw [dif_pos hq] at hok; cases hok
    · rw [dif_neg hq] at hok
      cases hok
      obtain ⟨hmem, huser, _, hgrp⟩ :=
        mem_rotationCandidates (List.get_mem _ _ _)
      exact ⟨hmem, huser, hgrp⟩
  · intro hsa hq
    subst hsa
    simp only [get_smtp_for_sending]
    rw [dif_pos hq]
  · intro a0 hsa hst
    subst hsa
    simp only [get_smtp_for_sending]
    rw [if_pos (by simpa using hst)]

/-- Closed instance of `get_smtp_for_sending_spec`: an empty account
table yields the `ValidationError`. -/
theorem get_smtp_for_sending_spec_witness :
    get_smtp_for_sending [] 5 none none 0 =
      .error "No active SMTP accounts available for sending" :=
  (get_smtp_for_sending_spec [] 5 none none 0).2.2.1 rfl rfl

/-! ## C8 — send_email success/failure protocol -/

/-- C8: once `send_email` has selected an account, it either succeeds —
returning `True` with the account's failures reset to 0, status restored
to "active" and `last_health_check` stamped — or, on any exception while
building or sending, runs `mark_failure` (incrementing the counter and
disabling the account at the threshold) and re-raises; and it raises if
and only if the SMTP interaction did not succeed. -/
theorem send_email_spec (accounts : List SMTPAccount) (userId : Nat)
    (rg : Option String) (sa : Option SMTPAccount)
    (smtpSend : SMTPAccount → Except String Unit) (now k : Nat)
    (acct : SMTPAccount)
    (hsel : get_smtp_for_sending accounts userId rg sa k = .ok acct) :
    (smtpSend acct = .ok () →
      send_email accounts userId rg sa smtpSend now k =
          .ok true (reset_failures acct now) ∧
        (reset_failures acct now).failure_count = 0 ∧
        (reset_failures acct now).status = "active" ∧
        (reset_failures acct now).last_health_check = some now) ∧
    (∀ e, smtpSend acct = .error e →
      send_email accounts userId rg sa smtpSend now k =
          .raised e (some (mark_failure acct now)) ∧
        (mark_failure acct now).failure_count = acct.failure_count + 1 ∧
        (acct.failure_count + 1 ≥ 3 →
          (mark_failure acct now).status = "disabled")) ∧
    ((∃ e macct, send_email accounts userId rg sa smtpSend now k =
        .raised e macct) ↔ smtpSend acct ≠ .ok ()) := by
  have hrw : send_email accounts userId rg sa smtpSend now k =
      (match smtpSend acct with
       | .ok _ => .ok true (reset_failures acct now)
       | .error e => .raised e (mark_failure acct now)) := by
    simp only [send_email, hsel]
  refine ⟨?_, ?_, ?_⟩
  · intro hok
    rw [hrw, hok]
    exact ⟨rfl, rfl, rfl, rfl⟩
  · intro e herr
    rw [hrw, herr]
    refine ⟨rfl, ?_, ?_⟩
    · simp [mark_failure, disable_if_failed]
      split <;> rfl
    · intro hge
      simp only [mark_failure, disable_if_failed]
      rw [if_pos (by simpa using hge)]
  · rw [hrw]
    by_cases hok : smtpSend acct = .ok ()
    · rw [hok]
      constructor
      · rintro ⟨e, macct, habs⟩
        cases habs
      · intro hne; exact absurd rfl hne
    · cases hout : smtpSend acct with
      | ok u => exact absurd (by cases u; exact hout) hok
      | error e =>
          constructor
          · intro _ habs
            cases habs
          · intro _
            exact ⟨e, some (mark_failure acct now), rfl⟩

/-- Closed instance of `send_email_spec`: a failing SMTP interaction on
a concrete active specific account re-raises and records the failure. -/
theorem send_email_spec_witness :
    send_email [] 1 none (some acctOfUser1)
        (fun _ => .error "connection refused") 7 0 =
      .raised "connection refused" (some (mark_failure acctOfUser1 7)) :=
  ((send_email_spec [] 1 none (some acctOfUser1)
      (fun _ => .error "connection refused") 7 0 acctOfUser1 rfl).2.1
    "connection refused" rfl).1

/-! ## C4 — the retry mechanism is only a status increment -/



/-- C4: `Message.retry` only sets status "retried" and bumps the
`retries` counter (the record-update equation fixes every other modelled
column, and the row has no backoff-delay or next-attempt column at all);
messages in status "retried" are never selected again by
`get_messages_ready_for_sending`, which yields only status "queued";
and `retry_failed_emails`, imported from `campaigns.tasks` by the
`process_campaigns` command, is not among the functions
`campaigns/tasks.py` defines. -/
theorem retry_is_only_status_increment (m : Message)
    (messages : List Message) (limit : Nat) :
    (m.retry = { m with status := "retried", retries := m.retries + 1 }) ∧
    (∀ m' ∈ get_messages_ready_for_sending messages limit,
      m'.status = "queued") ∧
    (m.status = "retried" → m ∉ get_messages_ready_for_sending messages limit) ∧
    ("retry_failed_emails" ∈ processCampaignsTasksImports ∧
      "retry_failed_emails" ∉ campaignsTasksDefs) := by
  refine ⟨rfl, ?_, ?_, by decide⟩
  · intro m' hm'
    exact status_of_mem_ready hm'
  · intro hret hmem
    have := status_of_mem_ready hmem
    rw [hret] at this
    simp at this

/-- Closed instance of `retry_is_only_status_increment`: a concrete
"retried" message is not selected by the queue selector. -/
theorem retry_is_only_status_increment_witness :
    msgRetriedEx ∉ get_messages_ready_for_sending [msgRetriedEx] 50 :=
  (retry_is_only_status_increment msgRetriedEx [msgRetriedEx] 50).2.2.1 rfl

/-! ## C9 — the queue service double-increments retries -/

/-- C9: `run_message_queue` maps each selected (hence "queued") message
through `execute_message_send` plus its own update; when the send raises
and the entry `retries` is below 3, the executor's `Message.retry`
leaves the message "retried" with `retries + 1`, the service then bumps
the same object again to `retries + 2`, and any message entering with
`retries` 1 or 2 therefore leaves the run in status "failed" even
though the executor had just set "retried". -/
theorem run_message_queue_double_increment (messages : List Message)
    (sendRaises : Message → Bool) (now batch_size : Nat) :
    (run_message_queue messages sendRaises now batch_size).1 =
      (get_messages_ready_for_sending messages batch_size).map
        (fun m => run_queue_step m (sendRaises m) now) ∧
    ∀ m ∈ get_messages_ready_for_sending messages batch_size,
      sendRaises m = true → m.retries < 3 →
      (execute_message_send m true now).1.status = "retried" ∧
      (execute_message_send m true now).1.retries = m.retries + 1 ∧
      (run_queue_step m true now).retries = m.retries + 2 ∧
      (1 ≤ m.retries → (run_queue_step m true now).status = "failed") ∧
      (m.retries = 0 → (run_queue_step m true now).status = "retried") := by
  refine ⟨rfl, ?_⟩
  intro m hmem _htrue hlt
  have hq := status_of_mem_ready hmem
  have hexec : execute_message_send m true now = (m.retry, false) := by
    unfold execute_message_send
    rw [if_neg (by simp [hq]), if_pos rfl, if_neg (by omega)]
  have hstep : run_queue_step m true now =
      (if m.retries + 1 + 1 ≥ 3
        then { m.retry with retries := m.retries + 1 + 1, status := "failed" }
        else { m.retry with retries := m.retries + 1 + 1, status := "retried" }) := by
    simp [run_queue_step, hexec, Message.retry]
  refine ⟨by rw [hexec]; rfl, by rw [hexec]; rfl, ?_, ?_, ?_⟩
  · rw [hstep]
    split <;> rfl
  · intro hge
    rw [hstep, if_pos (by omega)]
  · intro hzero
    rw [hstep, if_neg (by omega)]

/-- Closed instance of `run_message_queue_double_increment`: a queued
message with `retries = 1` whose send raises comes out of the run with
`retries = 3` and status "failed". -/
theorem run_message_queue_double_increment_witness :
    (run_queue_step
        { id := 9, campaign_id := 1, uuid := "mu-9", status := "queued"
          retries := 1, sent_at := none, created_at := 0 }
        true 4).retries = 1 + 2 ∧
    (run_queue_step
        { id := 9, campaign_id := 1, uuid := "mu-9", status := "queued"
          retries := 1, sent_at := none, created_at := 0 }
        true 4).status = "failed" := by
  have h := (run_message_queue_double_increment
      [{ id := 9, campaign_id := 1, uuid := "mu-9", status := "queued"
         retries := 1, sent_at := none, created_at := 0 }]
      (fun _ => true) 4 20).2
      { id := 9, campaign_id := 1, uuid := "mu-9", status := "queued"
        retries := 1, sent_at := none, created_at := 0 }
      (by decide) rfl (by decide)
  exact ⟨h.2.2.1, h.2.2.2.1 (by decide)⟩

/-! ## C5 — the campaign send loop -/





/-- C5 (counterexample): calling `send_campaign_emails` with the limit 0
— a given limit — processes ALL pending recipients instead of the first
0 of them, because the code guards the slice with Python truthiness
(`if limit:`): with one pending recipient and limit 0 it returns
`(1, 0)` and marks the recipient sent, where the claim as stated
requires `(0, 0)` and an untouched recipient. -/
theorem send_campaign_emails_limit_zero_cex :
    (send_campaign_emails campaignActive (some msgOfCampaign) [pendingRec]
        (some 0) (fun _ => .success) 5).2.2 = (1, 0) ∧
    (send_campaign_emails campaignActive (some msgOfCampaign) [pendingRec]
        (some 0) (fun _ => .success) 5).1 =
      [{ pendingRec with status := "sent", sent_at := some 5 }] ∧
    toProcessOf [pendingRec] (some 0) = [] := by
  refine ⟨rfl, rfl, rfl⟩

/-- C5 (amended): for a campaign that is "active", not scheduled in the
future and has a message, `send_campaign_emails` iterates exactly over
the message's pending recipients — the first `limit` of them when a
NONZERO limit is given (a limit of 0, like None, is falsy in Python and
disables the slice) — marking each processed recipient "sent" with
`sent_at` set, or "failed" with `error_message` and `retry_count`
updated; recipients not in status "pending" are unchanged, and the
returned pair counts exactly the processed recipients. -/
theorem send_campaign_emails_spec (campaign : Campaign) (msg : Message)
    (recipients : List MessageRecipient) (limit : Option Nat)
    (outcome : MessageRecipient → SendOutcome) (now : Nat)
    (hactive : campaign.status = "active")
    (hsched : scheduledInFuture campaign now = false)
    (hlimit : limit = none ∨ ∃ l, limit = some l ∧ l ≠ 0) :
    (send_campaign_emails campaign (some msg) recipients limit outcome now).1 =
      recipients.map (fun r =>
        if r ∈ toProcessOf recipients limit
          then process_recipient r (outcome r) now else r) ∧
    (send_campaign_emails campaign (some msg) recipients limit outcome now).2.2.1 =
      (toProcessOf recipients limit).countP
        (fun r => outcome r == SendOutcome.success) ∧
    (send_campaign_emails campaign (some msg) recipients limit outcome now).2.2.1 +
        (send_campaign_emails campaign (some msg) recipients limit outcome now).2.2.2 =
      (toProcessOf recipients limit).length ∧
    (∀ r ∈ toProcessOf recipients limit, r.status = "pending") ∧
    (∀ r, r.status ≠ "pending" →
      (if r ∈ toProcessOf recipients limit
        then process_recipient r (outcome r) now else r) = r) ∧
    (∀ r, (outcome r = .success →
        process_recipient r (outcome r) now =
          { r with status := "sent", sent_at := some now }) ∧
      (outcome r = .failure →
        process_recipient r (outcome r) now =
          { r with status := "failed", error_message := "Send failed"
                   retry_count := r.retry_count + 1 }) ∧
      (∀ e, outcome r = .exn e →
        process_recipient r (outcome r) now =
          { r with status := "failed", error_message := e
                   retry_count := r.retry_count + 1 })) := by
  have hmemPending : ∀ r ∈ toProcessOf recipients limit, r.status = "pending" := by
    intro r hr
    have hrp : r ∈ pendingOf recipients := by
      unfold toProcessOf at hr
      cases limit with
      | none => exact hr
      | some l => exact List.mem_of_mem_take hr
    simpa using (List.mem_filter.mp hrp).2
  have hrw : send_campaign_emails campaign (some msg) recipients limit outcome now =
      ( recipients.map (fun r =>
          if r ∈ toProcessOf recipients limit
            then process_recipient r (outcome r) now else r)
      , (if (toProcessOf recipients limit).countP
              (fun r => outcome r == SendOutcome.success) > 0 &&
            (toProcessOf recipients limit).length -
              (toProcessOf recipients limit).countP
                (fun r => outcome r == SendOutcome.success) == 0
          then { campaign with status := "completed" } else campaign)
      , (toProcessOf recipients limit).countP
          (fun r => outcome r == SendOutcome.success)
      , (toProcessOf recipients limit).length -
          (toProcessOf recipients limit).countP
            (fun r => outcome r == SendOutcome.success) ) := by
    unfold send_campaign_emails
    rw [if_neg (by simp [hactive]), if_neg (by simp [hsched])]
    rcases hlimit with hnone | ⟨l, hl, hlnz⟩
    · subst hnone
      rfl
    · subst hl
      have h0 : (l == 0) = false := by simpa using hlnz
      simp only [toProcessOf, pendingOf, h0, Bool.false_eq_true, if_false]
  refine ⟨by rw [hrw], by rw [hrw], ?_, hmemPending, ?_, ?_⟩
  · rw [hrw]
    dsimp only
    have hle : (toProcessOf recipients limit).countP
        (fun r => outcome r == SendOutcome.success) ≤
        (toProcessOf recipients limit).length := List.countP_le_length _
    omega
  · intro r hr
    rw [if_neg (fun hmem => hr (hmemPending r hmem))]
  · intro r
    refine ⟨?_, ?_, ?_⟩
    · intro h; simp [process_recipient, h, MessageRecipient.mark_sent]
    · intro h; simp [process_recipient, h, MessageRecipient.mark_failed]
    · intro e h; simp [process_recipient, h, MessageRecipient.mark_failed]

/-- Closed instance of `send_campaign_emails_spec`: one pending
recipient, no limit, a successful send — the returned pair is `(1, 0)`. -/
theorem send_campaign_emails_spec_witness :
    (send_campaign_emails campaignActive (some msgOfCampaign) [pendingRec]
        none (fun _ => .success) 5).2.2.1 =
      (toProcessOf [pendingRec] none).countP
        (fun r => (fun _ => SendOutcome.success) r == SendOutcome.success) :=
  (send_campaign_emails_spec campaignActive msgOfCampaign [pendingRec] none
    (fun _ => .success) 5 rfl rfl (Or.inl rfl)).2.1

/-! ## C6 — privacy of recorded opens -/

theorem applySave_ip (o : MessageOpen) : o.applySave.ip_hash = o.ip_hash := by
  unfold MessageOpen.applySave
  split <;> rfl

theorem applySave_others (o : MessageOpen) :
    o.applySave.message_id = o.message_id ∧
      o.applySave.recipient_id = o.recipient_id ∧
      o.applySave.beacon_uuid = o.beacon_uuid ∧
      o.applySave.opened_at = o.opened_at := by
  unfold MessageOpen.applySave
  split <;> exact ⟨rfl, rfl, rfl, rfl⟩

theorem applySave_ua (o : MessageOpen) :
    o.applySave.user_agent_family =
      (if o.user_agent_family ≠ "" then uaFamilyOf o.user_agent_family
       else o.user_agent_family) := by
  by_cases hc : o.user_agent_family ≠ ""
  · rw [if_pos hc]
    unfold MessageOpen.applySave
    rw [if_pos hc]
  · rw [if_neg hc]
    unfold MessageOpen.applySave
    rw [if_neg hc]

theorem beaconOpenRow_privacy (msgId : Nat)
    (uuid remote_addr user_agent : String)
    (recipient : Option MessageRecipient) (h : String → String) (now : Nat) :
    (beaconOpenRow msgId uuid remote_addr user_agent recipient h now).ip_hash =
      hashIp h remote_addr ∧
    (beaconOpenRow msgId uuid remote_addr user_agent recipient h now).user_agent_family =
      uaFamilyOf user_agent := by
  constructor
  · rw [beaconOpenRow, applySave_ip]
  · rw [beaconOpenRow, applySave_ua]
    exact uaFamily_pipeline' user_agent

/-- Every `MessageOpen` row a `message_beacon` request creates is a
`beaconOpenRow` for the request's data. -/
theorem message_beacon_created_row (db : BeaconDB)
    (uuid remote_addr user_agent recipient_param : String)
    (h : String → String) (now : Nat) (resp : HttpResponse) (db' : BeaconDB)
    (row : MessageOpen)
    (hok : message_beacon db uuid remote_addr user_agent recipient_param h now =
      .ok resp db' (some row)) :
    ∃ msgId recipient,
      row = beaconOpenRow msgId uuid remote_addr user_agent recipient h now := by
  unfold message_beacon at hok
  cases hfind : db.messages.find? (fun m => m.uuid == uuid) with
  | none =>
      rw [hfind] at hok
      simp at hok
  | some msg =>
      rw [hfind] at hok
      dsimp only at hok
      by_cases hrp : (recipient_param == "") = true
      · rw [if_pos hrp] at hok
        simp only [beaconRecordFor] at hok
        injection hok with h1 h2 h3
        injection h3 with h3
        exact ⟨msg.id, none, h3.symm⟩
      · rw [if_neg (by simpa using hrp)] at hok
        cases hpid : parseRecipientId recipient_param with
        | none =>
            rw [hpid] at hok
            dsimp only at hok
            cases hok
        | some rid =>
            rw [hpid] at hok
            dsimp only at hok
            cases hfr : db.recipients.find?
                (fun r => (r.id : Int) == rid && r.message_id == msg.id) with
            | some rec =>
                rw [hfr] at hok
                simp only [beaconRecordFor] at hok
                injection hok with h1 h2 h3
                injection h3 with h3
                exact ⟨msg.id, some rec, h3.symm⟩
            | none =>
                rw [hfr] at hok
                simp only [beaconRecordFor] at hok
                injection hok with h1 h2 h3
                injection h3 with h3
                exact ⟨msg.id, none, h3.symm⟩

/-- C6: every open actually recorded — whether through the
`message_beacon` endpoint or through `MessageOpenManager.record_open` —
stores as `ip_hash` exactly the SHA-256 hex digest (oracle `h`) of the
raw IP when one is present and null otherwise, and as
`user_agent_family` exactly the portion of the user-agent string before
its first "/" truncated to 50 characters (so never more than 50
characters); the `MessageOpen` row has no column for the raw IP or the
full user-agent at all. -/
theorem open_tracking_privacy (db : BeaconDB)
    (uuid remote_addr user_agent recipient_param : String)
    (h : String → String) (now : Nat) (recipients : List MessageRecipient)
    (message : Message) (contact : Option Nat)
    (raw_ip user_agent_family : String) (beacon_uuid : Option String) :
    (∀ resp db' row,
      message_beacon db uuid remote_addr user_agent recipient_param h now =
        .ok resp db' (some row) →
      row.ip_hash = (if remote_addr ≠ "" then some (h remote_addr) else none) ∧
        row.user_agent_family = uaFamilyOf user_agent ∧
        row.user_agent_family.length ≤ 50) ∧
    ((record_open recipients message contact raw_ip user_agent_family
        beacon_uuid h now).2.ip_hash =
      (if raw_ip ≠ "" then some (h raw_ip) else none)) ∧
    ((record_open recipients message contact raw_ip user_agent_family
        beacon_uuid h now).2.user_agent_family = uaFamilyOf user_agent_family) ∧
    ((record_open recipients message contact raw_ip user_agent_family
        beacon_uuid h now).2.user_agent_family.length ≤ 50) := by
  have hro : (record_open recipients message contact raw_ip user_agent_family
      beacon_uuid h now).2.ip_hash = hashIp h raw_ip ∧
      (record_open recipients message contact raw_ip user_agent_family
        beacon_uuid h now).2.user_agent_family = uaFamilyOf user_agent_family := by
    constructor
    · simp only [record_open]
      rw [applySave_ip]
    · simp only [record_open]
      rw [applySave_ua]
      exact uaFamily_pipeline user_agent_family
  refine ⟨?_, ?_, hro.2, ?_⟩
  · intro resp db' row hok
    obtain ⟨msgId, recipient, hrow⟩ :=
      message_beacon_created_row db uuid remote_addr user_agent
        recipient_param h now resp db' row hok
    subst hrow
    obtain ⟨hip, hua⟩ := beaconOpenRow_privacy msgId uuid remote_addr
      user_agent recipient h now
    refine ⟨by rw [hip]; rfl, hua, ?_⟩
    rw [hua]
    exact uaFamilyOf_length_le user_agent
  · rw [hro.1]; rfl
  · rw [hro.2]
    exact uaFamilyOf_length_le user_agent_family

/-- Closed instance of `open_tracking_privacy`: a concrete beacon hit
with IP "1.2.3.4" and user agent "AgentX/1.0 (X11)" stores the hashed
IP and the coarse family only. -/
theorem open_tracking_privacy_witness :
    (beaconOpenRow 1 "mu-1" "1.2.3.4" "AgentX/1.0 (X11)" none idHash 9).ip_hash =
        (if "1.2.3.4" ≠ "" then some (idHash "1.2.3.4") else none) ∧
      (beaconOpenRow 1 "mu-1" "1.2.3.4" "AgentX/1.0 (X11)" none idHash 9).user_agent_family =
        uaFamilyOf "AgentX/1.0 (X11)" ∧
      (beaconOpenRow 1 "mu-1" "1.2.3.4" "AgentX/1.0 (X11)" none idHash 9).user_agent_family.length ≤ 50 :=
  (open_tracking_privacy beaconDBEx "mu-1" "1.2.3.4" "AgentX/1.0 (X11)" ""
      idHash 9 [] msgOfCampaign none "" "" none).1
    pixelResponse
    { beaconDBEx with
        opens := [beaconOpenRow 1 "mu-1" "1.2.3.4" "AgentX/1.0 (X11)" none idHash 9] }
    (beaconOpenRow 1 "mu-1" "1.2.3.4" "AgentX/1.0 (X11)" none idHash 9)
    rfl

/-! ## C1 — the beacon does not always return the pixel -/

/-- C1: the constant pixel response is status 200, content type
image/png, body `PIXEL`, and it is what the endpoint returns when the
message does not exist — but on the SAME request (recipient parameter
"abc", a non-integer string) against an EXISTING message the uncaught
`ValueError` from the recipient-id coercion escapes instead (Django's
500 path), so the response is not always the pixel; the two outcomes
even differ with message existence. -/
theorem message_beacon_not_always_pixel :
    pixelResponse.status = 200 ∧
    pixelResponse.content_type = "image/png" ∧
    pixelResponse.body = PIXEL ∧
    message_beacon beaconDBEx "mu-1" "1.2.3.4" "AgentX/1.0" "abc" idHash 5 =
      .error "ValueError: invalid recipient id" beaconDBEx ∧
    message_beacon beaconDBEx "no-such-uuid" "1.2.3.4" "AgentX/1.0" "abc" idHash 5 =
      .ok pixelResponse beaconDBEx none :=
  ⟨rfl, rfl, rfl, rfl, rfl⟩

/-! ## C10 — recipient correlation in the beacon -/

/-- C10: with the recipient query parameter absent, set to an unknown
integer id, or naming a recipient of a DIFFERENT message, the beacon
still creates a `MessageOpen` row with a null recipient and changes no
recipient's status; a recipient of the addressed message is marked
opened; but with a non-integer recipient id (the failing input "abc")
the uncaught `ValueError` aborts the request and NO row is created,
against the claim's "absent, unknown, or belongs to a different
message" clause. -/
theorem message_beacon_recipient_handling :
    (message_beacon beaconDBEx "mu-1" "ip" "UA/1" "" idHash 5 =
      .ok pixelResponse
        { beaconDBEx with
            opens := [beaconOpenRow 1 "mu-1" "ip" "UA/1" none idHash 5] }
        (some (beaconOpenRow 1 "mu-1" "ip" "UA/1" none idHash 5))) ∧
    (beaconOpenRow 1 "mu-1" "ip" "UA/1" none idHash 5).recipient_id = none ∧
    (message_beacon beaconDBEx "mu-1" "ip" "UA/1" "999" idHash 5 =
      .ok pixelResponse
        { beaconDBEx with
            opens := [beaconOpenRow 1 "mu-1" "ip" "UA/1" none idHash 5] }
        (some (beaconOpenRow 1 "mu-1" "ip" "UA/1" none idHash 5))) ∧
    (message_beacon beaconDBEx "mu-1" "ip" "UA/1" "11" idHash 5 =
      .ok pixelResponse
        { beaconDBEx with
            opens := [beaconOpenRow 1 "mu-1" "ip" "UA/1" none idHash 5] }
        (some (beaconOpenRow 1 "mu-1" "ip" "UA/1" none idHash 5))) ∧
    (message_beacon beaconDBEx "mu-1" "ip" "UA/1" "10" idHash 5 =
      .ok pixelResponse
        { beaconDBEx with
            recipients :=
              [{ recOfMsg1 with status := "opened", opened_at := some 5 },
               recOfMsg2]
            opens := [beaconOpenRow 1 "mu-1" "ip" "UA/1" (some recOfMsg1) idHash 5] }
        (some (beaconOpenRow 1 "mu-1" "ip" "UA/1" (some recOfMsg1) idHash 5))) ∧
    (beaconOpenRow 1 "mu-1" "ip" "UA/1" (some recOfMsg1) idHash 5).recipient_id =
      some 10 ∧
    (message_beacon beaconDBEx "mu-1" "ip" "UA/1" "abc" idHash 5 =
      .error "ValueError: invalid recipient id" beaconDBEx) :=
  ⟨rfl, rfl, rfl, rfl, rfl, rfl, rfl⟩

/-! ## C7 — the click endpoint reveals message existence -/

/-- C7 (counterexample): the very same click request answered over a
database containing message "mu-1" and over one without it produces
distinguishable responses — HTTP 201 versus HTTP 404 — so recording a
click does reveal whether the underlying message exists. -/
theorem record_click_reveals_existence_cex :
    (record_click_view [msgOfCampaign] [] clickReqEx idHash).1 = 201 ∧
    (record_click_view [] [] clickReqEx idHash).1 = 404 ∧
    (201 : Nat) ≠ 404 :=
  ⟨rfl, rfl, by decide⟩

/-- C7 (amended): `RecordClickView` answers 201 exactly when some
message carries the requested `beacon_uuid` and 404 otherwise — the
response status is a direct function of message existence, so the
endpoint reveals it; the "never reveal existence" property of the spec
holds only for the pixel endpoint `message_beacon`. -/
theorem record_click_view_spec (messages : List Message)
    (clicks : List Click) (req : ClickRequest) (h : String → String) :
    ((∃ m ∈ messages, req.beacon_uuid = some m.uuid) →
      (record_click_view messages clicks req h).1 = 201) ∧
    ((∀ m ∈ messages, req.beacon_uuid ≠ some m.uuid) →
      (record_click_view messages clicks req h).1 = 404) := by
  constructor
  · rintro ⟨m, hm, huuid⟩
    have hsome : (messages.find?
        (fun m' => req.beacon_uuid == some m'.uuid)).isSome := by
      rw [List.find?_isSome]
      exact ⟨m, hm, by rw [huuid]; simp⟩
    unfold record_click_view
    cases hf : messages.find? (fun m' => req.beacon_uuid == some m'.uuid) with
    | none => rw [hf] at hsome; cases hsome
    | some mm => rfl
  · intro hall
    unfold record_click_view
    rw [List.find?_eq_none.mpr (by
      intro m hm
      simpa using hall m hm)]

/-- Closed instance of `record_click_view_spec`: the request for "mu-1"
against a database holding only "mu-2" is answered 404. -/
theorem record_click_view_spec_witness :
    (record_click_view [msgBeacon2] [] clickReqEx idHash).1 = 404 :=
  (record_click_view_spec [msgBeacon2] [] clickReqEx idHash).2 (by decide)

end Signalry
